import Mathlib

/-!
Verification of the food-ordering MCP server and client against their
natural-language specification.

Shallow embedding conventions:
* Dish prices are `REAL` dollar amounts with two decimals in the source;
  we model them exactly as integer cents (`Nat`), so the threshold
  `MAX_ALLOWED_DISH_PRICE = 10` dollars becomes `1000` cents and the
  format `"%.2f"` becomes `formatCents`.
* The SQLite tables are modelled as Lean lists seeded with the exact
  bootstrap data of `init_db` (AUTOINCREMENT ids 1..4 and 1..12).
* The remote policy-decision point is external to the repository; each
  tool receives the result of its live `permit.check` call through a
  function parameter, and the set of one-time `_Approved_` role
  assignments is explicit state (`GrantState`) so that the revocation
  performed by `order_dish` is observable.
* Python code that can raise (indexing a `None` row) is embedded in
  `Except String`; a returned value is `Except.ok`.
-/

namespace FoodOrdering

/-- A row of the `restaurants` table. -/
structure Restaurant where
  id : Nat
  name : String
  allowed_for_children : Bool
deriving DecidableEq

/-- A row of the `dishes` table; `price` is in cents. -/
structure Dish where
  id : Nat
  restaurant_id : Nat
  name : String
  price : Nat
deriving DecidableEq

/-- The three tables of the catalog store. -/
structure Catalog where
  users : List (String × String)
  restaurants : List Restaurant
  dishes : List Dish

/-- Threshold `MAX_ALLOWED_DISH_PRICE` (10 dollars), in cents. -/
def MAX_ALLOWED_DISH_PRICE : Nat := 1000

/-- The `users` rows seeded by `init_db`. -/
def seededUsers : List (String × String) :=
  [("joe", "parent"), ("jane", "parent"), ("henry", "child"), ("rose", "child")]

/-- The `restaurants` rows seeded by `init_db` (AUTOINCREMENT ids). -/
def seededRestaurants : List Restaurant :=
  [⟨1, "Pizza Palace", true⟩, ⟨2, "Burger Bonanza", true⟩,
   ⟨3, "Fancy French", false⟩, ⟨4, "Sushi World", false⟩]

/-- The `dishes` rows seeded by `init_db`, prices in cents. -/
def seededDishes : List Dish :=
  [⟨1, 1, "Cheese Pizza", 899⟩, ⟨2, 1, "Pepperoni Pizza", 1099⟩, ⟨3, 1, "Veggie Pizza", 949⟩,
   ⟨4, 2, "Classic Burger", 799⟩, ⟨5, 2, "Deluxe Burger", 1299⟩, ⟨6, 2, "Fries", 349⟩,
   ⟨7, 3, "Escargot", 1599⟩, ⟨8, 3, "Foie Gras", 1999⟩, ⟨9, 3, "Truffle Pasta", 1849⟩,
   ⟨10, 4, "California Roll", 699⟩, ⟨11, 4, "Sushi Platter", 2299⟩, ⟨12, 4, "Tempura", 999⟩]

/-- The database state after bootstrap. -/
def seededCatalog : Catalog :=
  ⟨seededUsers, seededRestaurants, seededDishes⟩

/-- Python `str.lower()` (character-wise lowercasing; the usernames in
play are ASCII). -/
def pyLower (s : String) : String :=
  ⟨s.data.map Char.toLower⟩

/-- Query `SELECT id, name, allowed_for_children FROM restaurants WHERE name = ?`,
first row or `None` (`get_restaurant_by_name`). -/
def get_restaurant_by_name (rs : List Restaurant) (restaurant_name : String) :
    Option Restaurant :=
  rs.find? (fun r => r.name == restaurant_name)

/-- Query `SELECT role FROM users WHERE username = ?`, first row mapped to its
role, `None` when absent. Shared by `verify_access` and `order_dish`. -/
def lookupRole (users : List (String × String)) (username : String) : Option String :=
  (users.find? (fun p => p.1 == username)).map (fun p => p.2)

/-- The `verify_access` tool: role of the given username, or `None`.
The username is used verbatim (the source does not lowercase it here). -/
def verify_access (users : List (String × String)) (username : String) : Option String :=
  lookupRole users username

/-- Result of `list_dishes`: either a message string or the rows. -/
inductive DishesResult
| msg (s : String)
| dishes (l : List (String × Nat))
deriving DecidableEq

/-- The access-denied string returned by `list_dishes`. -/
def accessDeniedMsg : String :=
  "Access denied. You are not permitted to view dishes from this restaurant."

/-- The `list_dishes` tool. `check u rid` is the live result of
`permit.check(u, "read", "restaurants:rid")`. -/
def list_dishes (check : String → Nat → Bool) (cat : Catalog)
    (username restaurant_name : String) : DishesResult :=
  let u := pyLower username
  match get_restaurant_by_name cat.restaurants restaurant_name with
  | none => .msg "Restaurant not found"
  | some r =>
    if check u r.id then
      let ds := (cat.dishes.filter (fun d => d.restaurant_id == r.id)).map
        (fun d => (d.name, d.price))
      if ds.isEmpty then .msg "No dishes available for this restaurant."
      else .dishes ds
    else .msg accessDeniedMsg

/-- Set of live one-time operate grants: `_Approved_` role assignments
(user, restaurant id) held at the authorization gateway. -/
abbrev GrantState := List (String × Nat)

/-- Python `"%.2f"` on an exact cent amount. -/
def formatCents (c : Nat) : String :=
  toString (c / 100) ++ "." ++
    (if c % 100 < 10 then "0" ++ toString (c % 100) else toString (c % 100))

/-- The refusal string of `order_dish` for a dish priced `price` cents. -/
def refusalMsg (price : Nat) : String :=
  "This dish costs $" ++ formatCents price ++
    ", and you can only order dishes less than $" ++ formatCents MAX_ALLOWED_DISH_PRICE ++
    ". To order this dish, you need to request an approval."

/-- The confirmation string of `order_dish`. -/
def confirmMsg (dish_name restaurant_name : String) : String :=
  "Order successfully placed for " ++ dish_name ++ " from " ++ restaurant_name ++ "!"

/-- Query of `order_dish` for the dish price:
`SELECT price FROM dishes WHERE name = ? AND restaurant_id = ?`. -/
def dishPrice (cat : Catalog) (dish_name : String) (rid : Nat) : Option Nat :=
  (cat.dishes.find? (fun d => d.name == dish_name && d.restaurant_id == rid)).map
    (fun d => d.price)

/-- The `order_dish` tool. `base u rid` is the part of the live
`permit.check(u, "operate", ...)` decision that does not come from a
one-time `_Approved_` assignment; `grants` is the current set of those
assignments, revoked by `unassign_role` on the success path when the
check was positive. Indexing the absent user row is an exception
(`Except.error`). -/
def order_dish (base : String → Nat → Bool) (cat : Catalog) (grants : GrantState)
    (username restaurant_name dish_name : String) :
    Except String (String × GrantState) :=
  let u := pyLower username
  match get_restaurant_by_name cat.restaurants restaurant_name with
  | none => .ok ("Restaurant not found.", grants)
  | some r =>
    match dishPrice cat dish_name r.id with
    | none => .ok ("Dish not found.", grants)
    | some price =>
      let userRow := lookupRole cat.users u
      let permitted := base u r.id || decide ((u, r.id) ∈ grants)
      match userRow with
      | none => .error "TypeError: NoneType object is not subscriptable"
      | some role =>
        if role = "child" ∧ MAX_ALLOWED_DISH_PRICE < price ∧ permitted = false then
          .ok (refusalMsg price, grants)
        else
          let grants2 :=
            if permitted then grants.filter (fun g => decide (g ≠ (u, r.id))) else grants
          .ok (confirmMsg dish_name restaurant_name, grants2)

/-- An HTTP response from the authorization gateway as the POST/PUT
tools consume it: status code and body text. -/
structure HttpResp where
  status : Nat
  text : String

/-- One element of the JSON `data` array returned by the pending-request
GET endpoints. -/
structure PendingItem where
  id : String
  reason : String
  status : String
deriving DecidableEq

/-- An HTTP response from a GET endpoint: status code, body text, and
the parsed `data` array. -/
structure HttpDataResp where
  status : Nat
  text : String
  data : List PendingItem

/-- The acknowledgment string of the request tools. -/
def requestSentMsg : String :=
  "Your request has been successfully sent. Please check back later."

/-- The core failure string built from a non-2xx upstream response. -/
def upstreamFailMsg (status : Nat) (text : String) : String :=
  "Request failed with status code " ++ toString status ++ ": " ++ text

/-- Predicate for `response.status_code >= 200 and response.status_code < 300`. -/
def is2xx (status : Nat) : Prop := 200 ≤ status ∧ status < 300

instance (status : Nat) : Decidable (is2xx status) := by
  unfold is2xx; infer_instance

/-- Result of the two pending-request listing tools. -/
inductive PendResult
| msg (s : String)
| pending (l : List (String × String))
deriving DecidableEq

/-- The filtering of the parsed `data` array to pending entries,
projected to access_request_id and reason. -/
def filterPending (data : List PendingItem) : List (String × String) :=
  (data.filter (fun it => it.status == "pending")).map (fun it => (it.id, it.reason))

/-- The `request_restaurant_access` tool. `gateway u rid` is the
response of the POST to the access-requests endpoint for user `u` and
resource instance `rid`. -/
def request_restaurant_access (cat : Catalog) (gateway : String → Nat → HttpResp)
    (username restaurant_name : String) : String :=
  let u := pyLower username
  match get_restaurant_by_name cat.restaurants restaurant_name with
  | none => "Restaurant not found."
  | some r =>
    let resp := gateway u r.id
    if is2xx resp.status then requestSentMsg
    else upstreamFailMsg resp.status resp.text ++ " " ++ toString r.id

/-- The `request_dish_approval` tool. The restaurant row comes from the
join of `restaurants` and `dishes` on the dish name; when that query
yields no row the source indexes `None`, an exception. -/
def request_dish_approval (cat : Catalog) (gateway : String → Nat → HttpResp)
    (username dish_name : String) : Except String String :=
  let u := pyLower username
  match cat.dishes.find? (fun d =>
      d.name == dish_name && cat.restaurants.any (fun r => r.id == d.restaurant_id)) with
  | none => .error "TypeError: NoneType object is not subscriptable"
  | some d =>
    let resp := gateway u d.restaurant_id
    if is2xx resp.status then .ok requestSentMsg
    else .ok (upstreamFailMsg resp.status resp.text)

/-- The `list_pending_restaurant_request` tool. -/
def list_pending_restaurant_request (cat : Catalog) (gateway : String → Nat → HttpDataResp)
    (username restaurant_name : String) : PendResult :=
  let u := pyLower username
  match get_restaurant_by_name cat.restaurants restaurant_name with
  | none => .msg "Restaurant not found."
  | some r =>
    let resp := gateway u r.id
    if is2xx resp.status then .pending (filterPending resp.data)
    else .msg (upstreamFailMsg resp.status resp.text ++ " " ++ toString r.id)

/-- The `list_pending_dish_request` tool. -/
def list_pending_dish_request (cat : Catalog) (gateway : String → Nat → HttpDataResp)
    (username restaurant_name : String) : PendResult :=
  let u := pyLower username
  match get_restaurant_by_name cat.restaurants restaurant_name with
  | none => .msg "Restaurant not found."
  | some r =>
    let resp := gateway u r.id
    if is2xx resp.status then .pending (filterPending resp.data)
    else .msg (upstreamFailMsg resp.status resp.text)

/-- The `approve_restaurant_access` tool; the source passes the username
into the PUT URL verbatim, without lowercasing. -/
def approve_restaurant_access (gateway : String → String → HttpResp)
    (username access_request_id : String) : String :=
  let resp := gateway username access_request_id
  if is2xx resp.status then "Access has been granted"
  else upstreamFailMsg resp.status resp.text

/-- The `approve_opeartion_request` tool (name as in the source);
`login` models `permit.elements.login_as`, whose bearer token is
appended to the failure string. The username is not lowercased. -/
def approve_opeartion_request (login : String → String)
    (gateway : String → String → HttpResp)
    (username operation_approval_id : String) : String :=
  let token := login username
  let resp := gateway token operation_approval_id
  if is2xx resp.status then "Access has been granted"
  else upstreamFailMsg resp.status resp.text ++ " " ++ token

/-! ## Client: the conversation orchestrator `MCPClient.process_query` -/

/-- One content segment of a model completion: free text, or a tool
invocation with id, name and arguments (the arguments dictionary is
modelled by its printed form). -/
inductive ContentBlock
| text (s : String)
| toolUse (id name args : String)
deriving DecidableEq

/-- A model completion: its ordered content segments. -/
structure Completion where
  content : List ContentBlock
deriving DecidableEq

/-- The trace line appended per executed tool call. -/
def traceLine (name args : String) : String :=
  "[Calling tool " ++ name ++ " with args " ++ args ++ "]"

/-- Python `response.content[0].text`: raises `IndexError` on empty
content and `AttributeError` when the first segment is not text. -/
def headTextOf : List ContentBlock → Except String String
  | [] => .error "IndexError: list index out of range"
  | .text s :: _ => .ok s
  | .toolUse _ _ _ :: _ => .error "AttributeError: tool_use block has no attribute text"

/-- Accumulator of the `for content in response.content` loop of
`process_query`: text segments gathered so far, executed tool calls
(name, args) in execution order, ids echoed in tool-result messages,
and the number of follow-up completions requested so far. -/
structure PQAcc where
  finalText : List String
  executed : List (String × String)
  toolResultIds : List String
  calls : Nat
deriving DecidableEq

/-- The body of the `for content in response.content` loop. The loop
iterates over the content of the completion it started from; for each
tool-use segment it executes the tool, appends the trace line, appends
one tool-result message carrying the segment id, requests the next
completion (`followups acc.calls`) and appends the text of the first
segment of that completion. Reassigning `response` in the source does
not change the sequence being iterated. -/
def runContents (followups : Nat → Completion) :
    List ContentBlock → PQAcc → Except String PQAcc
  | [], acc => .ok acc
  | .text s :: rest, acc =>
    runContents followups rest { acc with finalText := acc.finalText ++ [s] }
  | .toolUse id name args :: rest, acc =>
    let acc1 : PQAcc :=
      { acc with
        executed := acc.executed ++ [(name, args)]
        finalText := acc.finalText ++ [traceLine name args]
        toolResultIds := acc.toolResultIds ++ [id] }
    match headTextOf (followups acc1.calls).content with
    | .error e => .error e
    | .ok t =>
      runContents followups rest
        { acc1 with finalText := acc1.finalText ++ [t], calls := acc1.calls + 1 }

/-- Model of `MCPClient.process_query`, given the first completion and the
stream of completions returned by the subsequent API calls. Returns the
newline-joined answer, the executed tool calls, and the ids echoed in
tool-result messages. -/
def process_query (first : Completion) (followups : Nat → Completion) :
    Except String (String × List (String × String) × List String) :=
  match runContents followups first.content ⟨[], [], [], 0⟩ with
  | .error e => .error e
  | .ok acc => .ok (String.intercalate "\n" acc.finalText, acc.executed, acc.toolResultIds)

/-- The tool invocations (name, args) of a content list, in order. -/
def toolInvocationsOf (l : List ContentBlock) : List (String × String) :=
  l.filterMap (fun c => match c with
    | .toolUse _ n a => some (n, a)
    | _ => none)

/-- The tool-invocation ids of a content list, in order. -/
def toolIdsOf (l : List ContentBlock) : List String :=
  l.filterMap (fun c => match c with
    | .toolUse i _ _ => some i
    | _ => none)

/-- Containment of a substring, witnessed by an explicit split. -/
def embeds (s sub : String) : Prop :=
  ∃ a b, s = a ++ (sub ++ b)

/-- Modelled from the spec: the live `read` decision of the external
policy-decision point for a child-role user holding no granted access
request. The policy configuration itself is not in this repository;
per the bootstrap role assignments a child holds the child-can-order
role exactly on the restaurants with `allowed_for_children = true`, so
`read` on any other restaurant is denied. -/
def childReadNoGrant (rs : List Restaurant) (rid : Nat) : Bool :=
  match rs.find? (fun r => r.id == rid) with
  | some r => r.allowed_for_children
  | none => false

/-- First completion of the C3 counterexample: a single tool call. -/
def c3First : Completion :=
  ⟨[.toolUse "t1" "list_restaurants" "argsA"]⟩

/-- Follow-up stream of the C3 counterexample: the second completion
carries text and one further tool invocation; later ones are text. -/
def c3Followups : Nat → Completion := fun n =>
  if n = 0 then ⟨[.text "hi", .toolUse "t2" "order_dish" "argsB"]⟩ else ⟨[.text "done"]⟩

/-- First completion of the C7 counterexample: a single tool call. -/
def c7First : Completion :=
  ⟨[.toolUse "i1" "list_dishes" "argsC"]⟩

/-- Follow-up stream of the C7 counterexample: the follow-up completion
is text-only but carries two text segments. -/
def c7Followups : Nat → Completion := fun _ =>
  ⟨[.text "first segment", .text "second segment"]⟩

/-! ## Helper lemmas -/

theorem strAppend_assoc (a b c : String) : a ++ b ++ c = a ++ (b ++ c) :=
  congrArg String.mk (List.append_assoc a.data b.data c.data)

theorem ne_of_data_head {s t : String} {c1 c2 : Char}
    (h1 : s.data.head? = some c1) (h2 : t.data.head? = some c2) (hc : c1 ≠ c2) :
    s ≠ t := by
  intro h
  rw [h, h2] at h1
  exact hc (Option.some.inj h1).symm

theorem refusalMsg_head (price : Nat) : (refusalMsg price).data.head? = some 'T' := rfl

theorem confirmMsg_head (dish_name restaurant_name : String) :
    (confirmMsg dish_name restaurant_name).data.head? = some 'O' := rfl

theorem formatCents_threshold : formatCents MAX_ALLOWED_DISH_PRICE = "10.00" := by decide

/-! ## Claim theorems -/

/-- C1: with restaurant, dish and role all resolved, `order_dish`
returns the refusal string (naming the price and the 10.00 threshold,
and distinct from any confirmation) exactly when the role is child, the
price strictly exceeds the threshold and the operate check for the
lowercased username on the restaurant instance is negative; in every
other case it returns the order confirmation. -/
theorem order_dish_price_rule (base : String → Nat → Bool) (cat : Catalog)
    (grants : GrantState) (username restaurant_name dish_name : String)
    (r : Restaurant) (price : Nat) (role : String)
    (hr : get_restaurant_by_name cat.restaurants restaurant_name = some r)
    (hd : dishPrice cat dish_name r.id = some price)
    (hu : lookupRole cat.users (pyLower username) = some role) :
    (role = "child" → MAX_ALLOWED_DISH_PRICE < price →
      (base (pyLower username) r.id || decide ((pyLower username, r.id) ∈ grants)) = false →
      order_dish base cat grants username restaurant_name dish_name
          = .ok (refusalMsg price, grants)
        ∧ embeds (refusalMsg price) (formatCents price)
        ∧ embeds (refusalMsg price) "10.00"
        ∧ refusalMsg price ≠ confirmMsg dish_name restaurant_name)
    ∧ (¬(role = "child" ∧ MAX_ALLOWED_DISH_PRICE < price ∧
          (base (pyLower username) r.id || decide ((pyLower username, r.id) ∈ grants)) = false) →
      ∃ g2, order_dish base cat grants username restaurant_name dish_name
          = .ok (confirmMsg dish_name restaurant_name, g2)) := by
  constructor
  · intro hrole hp hperm
    refine ⟨?_, ?_, ?_, ?_⟩
    · simp only [order_dish, hr, hd, hu]
      rw [if_pos ⟨hrole, hp, hperm⟩]
    · exact ⟨"This dish costs $",
        ", and you can only order dishes less than $" ++ formatCents MAX_ALLOWED_DISH_PRICE ++
          ". To order this dish, you need to request an approval.",
        by simp only [refusalMsg, strAppend_assoc]⟩
    · refine ⟨"This dish costs $" ++ formatCents price ++
          ", and you can only order dishes less than $",
        ". To order this dish, you need to request an approval.", ?_⟩
      rw [refusalMsg, formatCents_threshold]
      simp only [strAppend_assoc]
    · exact ne_of_data_head (refusalMsg_head price)
        (confirmMsg_head dish_name restaurant_name) (by decide)
  · intro hn
    exact ⟨if (base (pyLower username) r.id || decide ((pyLower username, r.id) ∈ grants))
        then grants.filter (fun g => decide (g ≠ (pyLower username, r.id))) else grants,
      by simp only [order_dish, hr, hd, hu]; rw [if_neg hn]⟩

/-- C2: a child holding a one-time operate grant on the restaurant (and
no standing operate permission) gets a confirmation for any dish there;
the grant is revoked by that successful order, and an identical second
order of a dish priced above the threshold is refused. -/
theorem order_dish_one_time_grant (base : String → Nat → Bool) (cat : Catalog)
    (grants : GrantState) (username restaurant_name dish_name : String)
    (r : Restaurant) (price : Nat)
    (hr : get_restaurant_by_name cat.restaurants restaurant_name = some r)
    (hd : dishPrice cat dish_name r.id = some price)
    (hu : lookupRole cat.users (pyLower username) = some "child")
    (hbase : base (pyLower username) r.id = false)
    (hg : (pyLower username, r.id) ∈ grants) :
    ∃ g2, order_dish base cat grants username restaurant_name dish_name
        = .ok (confirmMsg dish_name restaurant_name, g2)
      ∧ (pyLower username, r.id) ∉ g2
      ∧ (MAX_ALLOWED_DISH_PRICE < price →
          order_dish base cat g2 username restaurant_name dish_name
            = .ok (refusalMsg price, g2)) := by
  refine ⟨grants.filter (fun g => decide (g ≠ (pyLower username, r.id))), ?_, ?_, ?_⟩
  · simp only [order_dish, hr, hd, hu]
    have hmem : decide ((pyLower username, r.id) ∈ grants) = true := by simpa using hg
    rw [hbase, hmem]
    simp
  · simp [List.mem_filter]
  · intro hp
    have hout : decide ((pyLower username, r.id) ∈
        grants.filter (fun g => decide (g ≠ (pyLower username, r.id)))) = false := by
      simp [List.mem_filter]
    simp only [order_dish, hr, hd, hu]
    rw [hbase, hout]
    simp [hp]

/-- Witness for C1 at the seeded data: child henry, no grant, ordering
Pepperoni Pizza (10.99) from Pizza Palace is refused; parent joe gets a
confirmation for the same dish. -/
theorem order_dish_price_rule_witness :
    order_dish (fun _ _ => false) seededCatalog [] "henry" "Pizza Palace" "Pepperoni Pizza"
        = .ok (refusalMsg 1099, ([] : GrantState))
      ∧ embeds (refusalMsg 1099) "10.00"
      ∧ ∃ g2, order_dish (fun _ _ => false) seededCatalog [] "joe" "Pizza Palace"
          "Pepperoni Pizza" = .ok (confirmMsg "Pepperoni Pizza" "Pizza Palace", g2) :=
  ⟨((order_dish_price_rule (fun _ _ => false) seededCatalog [] "henry" "Pizza Palace"
      "Pepperoni Pizza" ⟨1, "Pizza Palace", true⟩ 1099 "child" rfl rfl rfl).1
      rfl (by decide) rfl).1,
   ((order_dish_price_rule (fun _ _ => false) seededCatalog [] "henry" "Pizza Palace"
      "Pepperoni Pizza" ⟨1, "Pizza Palace", true⟩ 1099 "child" rfl rfl rfl).1
      rfl (by decide) rfl).2.2.1,
   (order_dish_price_rule (fun _ _ => false) seededCatalog [] "joe" "Pizza Palace"
      "Pepperoni Pizza" ⟨1, "Pizza Palace", true⟩ 1099 "parent" rfl rfl rfl).2
      (by simp)⟩

/-- Witness for C2 at the seeded data: henry with a one-time grant on
Pizza Palace orders Pepperoni Pizza once; the grant is gone and the
identical second order is refused. -/
theorem order_dish_one_time_grant_witness :
    ∃ g2, order_dish (fun _ _ => false) seededCatalog [("henry", 1)] "henry" "Pizza Palace"
        "Pepperoni Pizza" = .ok (confirmMsg "Pepperoni Pizza" "Pizza Palace", g2)
      ∧ ("henry", 1) ∉ g2
      ∧ (MAX_ALLOWED_DISH_PRICE < 1099 →
          order_dish (fun _ _ => false) seededCatalog g2 "henry" "Pizza Palace"
            "Pepperoni Pizza" = .ok (refusalMsg 1099, g2)) :=
  order_dish_one_time_grant (fun _ _ => false) seededCatalog [("henry", 1)] "henry"
    "Pizza Palace" "Pepperoni Pizza" ⟨1, "Pizza Palace", true⟩ 1099 rfl rfl rfl rfl
    (by decide)

/-- C9: `verify_access` returns no role for a username absent from the
users table (it never raises: the absent row is guarded), and returns
the seeded role for a seeded username. -/
theorem verify_access_role_lookup :
    (∀ u, (∀ role, (u, role) ∉ seededUsers) → verify_access seededUsers u = none)
    ∧ (∀ u role, (u, role) ∈ seededUsers → verify_access seededUsers u = some role) := by
  constructor
  · intro u h
    have hnone : seededUsers.find? (fun p => p.1 == u) = none := by
      rw [List.find?_eq_none]
      rintro ⟨a, b⟩ hp hpu
      have ha : a = u := by simpa using hpu
      subst ha
      exact h b hp
    simp [verify_access, lookupRole, hnone]
  · intro u role h
    fin_cases h <;> decide

/-- Witness for C9: an unseeded username gets `none`, henry gets child. -/
theorem verify_access_role_lookup_witness :
    verify_access seededUsers "bob" = none
    ∧ verify_access seededUsers "henry" = some "child" :=
  ⟨verify_access_role_lookup.1 "bob" (fun role => by simp [seededUsers]),
   verify_access_role_lookup.2 "henry" "child" (by simp [seededUsers])⟩

/-- C10: when restaurant and dish resolve but the lowercased username
has no users row, `order_dish` indexes the absent row before the price
check and raises instead of returning a string. -/
theorem order_dish_unknown_user_raises (base : String → Nat → Bool) (cat : Catalog)
    (grants : GrantState) (username restaurant_name dish_name : String)
    (r : Restaurant) (price : Nat)
    (hr : get_restaurant_by_name cat.restaurants restaurant_name = some r)
    (hd : dishPrice cat dish_name r.id = some price)
    (hu : lookupRole cat.users (pyLower username) = none) :
    order_dish base cat grants username restaurant_name dish_name
      = .error "TypeError: NoneType object is not subscriptable" := by
  simp only [order_dish, hr, hd, hu]

/-- Witness for C10: an unknown user ordering a valid dish from a valid
restaurant hits the exception. -/
theorem order_dish_unknown_user_raises_witness :
    order_dish (fun _ _ => false) seededCatalog [] "ghost" "Pizza Palace" "Cheese Pizza"
      = .error "TypeError: NoneType object is not subscriptable" :=
  order_dish_unknown_user_raises (fun _ _ => false) seededCatalog [] "ghost" "Pizza Palace"
    "Cheese Pizza" ⟨1, "Pizza Palace", true⟩ 899 rfl rfl rfl

theorem strAppend_empty (a : String) : a ++ "" = a :=
  congrArg String.mk (List.append_nil a.data)

/-- Execution bookkeeping of the orchestrator loop: a successful run
over a content list appends exactly its tool invocations and their ids
to the accumulator. -/
theorem runContents_ok_executed (followups : Nat → Completion) :
    ∀ (c : List ContentBlock) (acc acc2 : PQAcc),
      runContents followups c acc = .ok acc2 →
      acc2.executed = acc.executed ++ toolInvocationsOf c
      ∧ acc2.toolResultIds = acc.toolResultIds ++ toolIdsOf c := by
  intro c
  induction c with
  | nil =>
    intro acc acc2 h
    simp only [runContents, Except.ok.injEq] at h
    subst h
    simp [toolInvocationsOf, toolIdsOf]
  | cons hd tl ih =>
    intro acc acc2 h
    cases hd with
    | text s =>
      simp only [runContents] at h
      have := ih _ _ h
      simpa [toolInvocationsOf, toolIdsOf] using this
    | toolUse id name args =>
      simp only [runContents] at h
      cases hht : headTextOf (followups acc.calls).content with
      | error e => rw [hht] at h; cases h
      | ok t =>
        rw [hht] at h
        have := ih _ _ h
        simp only [toolInvocationsOf, toolIdsOf, List.filterMap_cons] at this ⊢
        simpa [toolInvocationsOf, toolIdsOf, List.append_assoc] using this

/-- C3 counterexample: the model emits a tool invocation in the second
completion round, but `process_query` terminates after the first
response content is exhausted and never executes it. -/
theorem process_query_not_all_rounds :
    process_query c3First c3Followups
        = .ok ("[Calling tool list_restaurants with args argsA]\nhi",
            [("list_restaurants", "argsA")], ["t1"])
      ∧ ContentBlock.toolUse "t2" "order_dish" "argsB" ∈ (c3Followups 0).content
      ∧ ("order_dish", "argsB") ∉ ([("list_restaurants", "argsA")] : List (String × String)) :=
  ⟨rfl, by decide, by decide⟩

/-- C3 amended: `process_query` executes exactly the tool invocations
of the first completion, in emission order, echoing exactly one
tool-result id per executed invocation; later completion rounds are
never scanned for tool invocations. -/
theorem process_query_first_round_only (first : Completion) (followups : Nat → Completion)
    (ans : String) (ex : List (String × String)) (ids : List String)
    (h : process_query first followups = .ok (ans, ex, ids)) :
    ex = toolInvocationsOf first.content ∧ ids = toolIdsOf first.content := by
  unfold process_query at h
  cases hrc : runContents followups first.content ⟨[], [], [], 0⟩ with
  | error e => rw [hrc] at h; cases h
  | ok acc =>
    rw [hrc] at h
    simp only [Except.ok.injEq, Prod.mk.injEq] at h
    obtain ⟨-, rfl, rfl⟩ := h
    have := runContents_ok_executed followups first.content _ _ hrc
    simpa using this

/-- Witness for the amended C3 at the counterexample input. -/
theorem process_query_first_round_only_witness :
    [("list_restaurants", "argsA")] = toolInvocationsOf c3First.content
    ∧ ["t1"] = toolIdsOf c3First.content :=
  process_query_first_round_only c3First c3Followups
    "[Calling tool list_restaurants with args argsA]\nhi"
    [("list_restaurants", "argsA")] ["t1"] rfl

/-- C7 counterexample: with a text-only follow-up completion of two
segments, the returned answer carries only the first segment, not the
whole text of the final response. -/
theorem process_query_drops_later_segments :
    process_query c7First c7Followups
        = .ok ("[Calling tool list_dishes with args argsC]\nfirst segment",
            [("list_dishes", "argsC")], ["i1"])
      ∧ (c7Followups 0).content
          = [ContentBlock.text "first segment", ContentBlock.text "second segment"]
      ∧ "[Calling tool list_dishes with args argsC]\nfirst segment"
          ≠ "[Calling tool list_dishes with args argsC]\nfirst segment\nsecond segment" :=
  ⟨rfl, rfl, by decide⟩

/-- C7 amended: one tool invocation in the first response followed by a
follow-up completion beginning with a text segment executes exactly one
tool, and the answer is the trace line followed by the first text
segment of the follow-up (later segments are dropped). -/
theorem process_query_single_tool_round (id name args s : String) (rest : List ContentBlock)
    (followups : Nat → Completion)
    (h : followups 0 = ⟨ContentBlock.text s :: rest⟩) :
    process_query ⟨[ContentBlock.toolUse id name args]⟩ followups
      = .ok (traceLine name args ++ "\n" ++ s, [(name, args)], [id]) := by
  simp only [process_query, runContents, h, headTextOf, String.intercalate]
  rfl

/-- Witness for the amended C7 at the counterexample input. -/
theorem process_query_single_tool_round_witness :
    process_query ⟨[ContentBlock.toolUse "i1" "list_dishes" "argsC"]⟩ c7Followups
      = .ok (traceLine "list_dishes" "argsC" ++ "\n" ++ "first segment",
          [("list_dishes", "argsC")], ["i1"]) :=
  process_query_single_tool_round "i1" "list_dishes" "argsC" "first segment"
    [ContentBlock.text "second segment"] c7Followups rfl

/-- C4: when the restaurant resolves, `list_dishes` returns the
access-denied message (and no dish data) exactly when the read check
for the lowercased username on the restaurant instance is negative, and
otherwise the (name, price) rows of exactly that restaurant; in
particular a child with no grant is denied on a restaurant that is not
allowed for children. -/
theorem list_dishes_read_permission (check : String → Nat → Bool)
    (username restaurant_name : String) (r : Restaurant)
    (hr : get_restaurant_by_name seededRestaurants restaurant_name = some r) :
    (check (pyLower username) r.id = false →
      list_dishes check seededCatalog username restaurant_name = .msg accessDeniedMsg)
    ∧ (check (pyLower username) r.id = true →
      list_dishes check seededCatalog username restaurant_name
        = .dishes ((seededDishes.filter (fun d => d.restaurant_id == r.id)).map
            (fun d => (d.name, d.price))))
    ∧ (r.allowed_for_children = false →
      list_dishes (fun _ rid => childReadNoGrant seededRestaurants rid)
          seededCatalog username restaurant_name = .msg accessDeniedMsg) := by
  have hmem : r ∈ seededRestaurants := List.mem_of_find?_eq_some hr
  refine ⟨?_, ?_, ?_⟩
  · intro hc
    simp [list_dishes, seededCatalog, hr, hc]
  · intro hc
    have hne : ((seededDishes.filter (fun d => d.restaurant_id == r.id)).map
        (fun d => (d.name, d.price))).isEmpty = false := by
      fin_cases hmem <;> decide
    simp [list_dishes, seededCatalog, hr, hc, hne]
  · intro hal
    have hc : childReadNoGrant seededRestaurants r.id = false := by
      fin_cases hmem <;> revert hal <;> decide
    simp [list_dishes, seededCatalog, hr, hc]

/-- Witness for C4 at the seeded data: child henry is denied on Fancy
French (not allowed for children), and an allowed check yields the
Pizza Palace rows. -/
theorem list_dishes_read_permission_witness :
    list_dishes (fun _ _ => false) seededCatalog "henry" "Fancy French" = .msg accessDeniedMsg
    ∧ list_dishes (fun _ _ => true) seededCatalog "henry" "Pizza Palace"
        = .dishes ((seededDishes.filter (fun d => d.restaurant_id == (1 : Nat))).map
            (fun d => (d.name, d.price)))
    ∧ list_dishes (fun _ rid => childReadNoGrant seededRestaurants rid) seededCatalog
        "henry" "Fancy French" = .msg accessDeniedMsg :=
  ⟨(list_dishes_read_permission (fun _ _ => false) "henry" "Fancy French"
      ⟨3, "Fancy French", false⟩ rfl).1 rfl,
   (list_dishes_read_permission (fun _ _ => true) "henry" "Pizza Palace"
      ⟨1, "Pizza Palace", true⟩ rfl).2.1 rfl,
   (list_dishes_read_permission (fun _ _ => false) "henry" "Fancy French"
      ⟨3, "Fancy French", false⟩ rfl).2.2 rfl⟩

/-- C5 (code bug): `request_dish_approval` called with a dish name that
does not resolve dereferences the absent row and raises instead of
returning a descriptive string; the not-found guard present in every
sibling tool is missing here. -/
theorem request_dish_approval_unknown_dish_raises :
    request_dish_approval seededCatalog (fun _ _ => ⟨200, "ok"⟩) "henry" "Nonexistent Dish"
      = .error "TypeError: NoneType object is not subscriptable" := rfl

/-- C6 counterexample: `verify_access` does not normalize its username,
so its behaviour on a mixed-case seeded name differs from its behaviour
on the lowercased form. -/
theorem verify_access_case_sensitive :
    verify_access seededUsers "Henry" = none
    ∧ verify_access seededUsers (pyLower "Henry") = some "child"
    ∧ verify_access seededUsers "Henry" ≠ verify_access seededUsers (pyLower "Henry") :=
  ⟨rfl, by decide, by decide⟩

/-- C6 amended: the six catalog and approval-workflow tools that
lowercase their username behave identically on usernames with the same
lowercase form, while `verify_access` (and the two approve tools, which
pass the username verbatim) do not normalize: `verify_access`
distinguishes a mixed-case spelling of a seeded username from its
lowercase form. -/
theorem username_lowercase_normalization :
    (∀ (check : String → Nat → Bool) (cat : Catalog) (u v rn : String),
      pyLower u = pyLower v → list_dishes check cat u rn = list_dishes check cat v rn)
    ∧ (∀ (base : String → Nat → Bool) (cat : Catalog) (grants : GrantState) (u v rn dn : String),
      pyLower u = pyLower v →
      order_dish base cat grants u rn dn = order_dish base cat grants v rn dn)
    ∧ (∀ (cat : Catalog) (gw : String → Nat → HttpResp) (u v rn : String),
      pyLower u = pyLower v →
      request_restaurant_access cat gw u rn = request_restaurant_access cat gw v rn)
    ∧ (∀ (cat : Catalog) (gw : String → Nat → HttpResp) (u v dn : String),
      pyLower u = pyLower v →
      request_dish_approval cat gw u dn = request_dish_approval cat gw v dn)
    ∧ (∀ (cat : Catalog) (gw : String → Nat → HttpDataResp) (u v rn : String),
      pyLower u = pyLower v →
      list_pending_restaurant_request cat gw u rn = list_pending_restaurant_request cat gw v rn)
    ∧ (∀ (cat : Catalog) (gw : String → Nat → HttpDataResp) (u v rn : String),
      pyLower u = pyLower v →
      list_pending_dish_request cat gw u rn = list_pending_dish_request cat gw v rn)
    ∧ verify_access seededUsers "Henry" ≠ verify_access seededUsers "henry" := by
  refine ⟨?_, ?_, ?_, ?_, ?_, ?_, by decide⟩
  · intro check cat u v rn h
    simp only [list_dishes, h]
  · intro base cat grants u v rn dn h
    simp only [order_dish, h]
  · intro cat gw u v rn h
    simp only [request_restaurant_access, h]
  · intro cat gw u v dn h
    simp only [request_dish_approval, h]
  · intro cat gw u v rn h
    simp only [list_pending_restaurant_request, h]
  · intro cat gw u v rn h
    simp only [list_pending_dish_request, h]

/-- Witness for the amended C6: two spellings with the same lowercase
form get the same `list_dishes` answer. -/
theorem username_lowercase_normalization_witness :
    list_dishes (fun _ _ => true) seededCatalog "HENRY" "Pizza Palace"
      = list_dishes (fun _ _ => true) seededCatalog "Henry" "Pizza Palace" :=
  username_lowercase_normalization.1 (fun _ _ => true) seededCatalog "HENRY" "Henry"
    "Pizza Palace" (by decide)

/-- C8: every gateway-backed tool surfaces a non-2xx upstream response
as a returned failure string embedding the status code and the response
body text, rather than raising. -/
theorem upstream_failure_surfaced (cat : Catalog) (status : Nat) (text token : String)
    (data : List PendingItem) (username restaurant_name dish_name rqid opid : String)
    (r : Restaurant) (d : Dish)
    (hs : ¬ is2xx status)
    (hr : get_restaurant_by_name cat.restaurants restaurant_name = some r)
    (hd : cat.dishes.find? (fun d0 => d0.name == dish_name
        && cat.restaurants.any (fun r0 => r0.id == d0.restaurant_id)) = some d) :
    (request_restaurant_access cat (fun _ _ => ⟨status, text⟩) username restaurant_name
        = upstreamFailMsg status text ++ " " ++ toString r.id
      ∧ embeds (upstreamFailMsg status text ++ " " ++ toString r.id) (toString status)
      ∧ embeds (upstreamFailMsg status text ++ " " ++ toString r.id) text)
    ∧ request_dish_approval cat (fun _ _ => ⟨status, text⟩) username dish_name
        = .ok (upstreamFailMsg status text)
    ∧ list_pending_restaurant_request cat (fun _ _ => ⟨status, text, data⟩) username
        restaurant_name = .msg (upstreamFailMsg status text ++ " " ++ toString r.id)
    ∧ list_pending_dish_request cat (fun _ _ => ⟨status, text, data⟩) username
        restaurant_name = .msg (upstreamFailMsg status text)
    ∧ approve_restaurant_access (fun _ _ => ⟨status, text⟩) username rqid
        = upstreamFailMsg status text
    ∧ approve_opeartion_request (fun _ => token) (fun _ _ => ⟨status, text⟩) username opid
        = upstreamFailMsg status text ++ " " ++ token
    ∧ embeds (upstreamFailMsg status text) (toString status)
    ∧ embeds (upstreamFailMsg status text) text := by
  refine ⟨⟨?_, ?_, ?_⟩, ?_, ?_, ?_, ?_, ?_, ?_, ?_⟩
  · simp only [request_restaurant_access, hr]
    rw [if_neg hs]
  · exact ⟨"Request failed with status code ",
      ": " ++ text ++ " " ++ toString r.id,
      by simp only [upstreamFailMsg, strAppend_assoc]⟩
  · exact ⟨"Request failed with status code " ++ toString status ++ ": ",
      " " ++ toString r.id,
      by simp only [upstreamFailMsg, strAppend_assoc]⟩
  · simp only [request_dish_approval, hd]
    rw [if_neg hs]
  · simp only [list_pending_restaurant_request, hr]
    rw [if_neg hs]
  · simp only [list_pending_dish_request, hr]
    rw [if_neg hs]
  · simp only [approve_restaurant_access]
    rw [if_neg hs]
  · simp only [approve_opeartion_request]
    rw [if_neg hs]
  · exact ⟨"Request failed with status code ", ": " ++ text,
      by simp only [upstreamFailMsg, strAppend_assoc]⟩
  · refine ⟨"Request failed with status code " ++ toString status ++ ": ", "", ?_⟩
    rw [strAppend_empty]
    simp only [upstreamFailMsg, strAppend_assoc]

/-- Witness for C8 at a concrete 403 upstream response. -/
theorem upstream_failure_surfaced_witness :
    approve_restaurant_access (fun _ _ => ⟨403, "Forbidden"⟩) "henry" "rq1"
      = upstreamFailMsg 403 "Forbidden"
    ∧ embeds (upstreamFailMsg 403 "Forbidden") (toString 403) :=
  ⟨(upstream_failure_surfaced seededCatalog 403 "Forbidden" "tok" [] "henry" "Pizza Palace"
      "Cheese Pizza" "rq1" "o1" ⟨1, "Pizza Palace", true⟩ ⟨1, 1, "Cheese Pizza", 899⟩
      (by decide) rfl rfl).2.2.2.2.1,
   (upstream_failure_surfaced seededCatalog 403 "Forbidden" "tok" [] "henry" "Pizza Palace"
      "Cheese Pizza" "rq1" "o1" ⟨1, "Pizza Palace", true⟩ ⟨1, 1, "Cheese Pizza", 899⟩
      (by decide) rfl rfl).2.2.2.2.2.2.1⟩

end FoodOrdering
